import Mathlib

/-!
Shallow embedding of the authorization / booking-lifecycle core of the
corporate travel-booking backend.

The definitions below are translated from:
  * `backend/app/core/permissions.py`   (group permission map, merge)
  * `backend/app/core/access_control.py` (AccessControl, subordinate BFS)
  * `backend/app/services/policy_engine.py` (PolicyEngine.evaluate)
  * `backend/app/services/booking_workflow.py` (BookingStateMachine)
  * `backend/app/api/v1/endpoints/approvals.py` (approve/reject endpoints)
  * `backend/app/api/v1/endpoints/roles.py` (get_employee_roles computation)

Modelling conventions:
  * Database rows are plain structures; a SQLAlchemy
    `select(...).where(id == x) ... .first()` over a table is modelled as
    `List.filter` + `head?` over an explicit list of rows.
  * Monetary amounts are rationals; dates are integers counting days, so the
    Python `(start - now).days` difference is ordinary integer subtraction.
  * An endpoint call mutates ORM objects in a session and only persists them
    when `db.commit()` is reached; an outcome record therefore carries both
    the in-session object states and a `committed` flag.  A raised
    `HTTPException` is an `error := some httpStatus` outcome with
    `committed := false`: the request-scoped session is closed without
    commit, so pending mutations are rolled back.  The durable state seen by
    later requests is `persistedBooking`.
  * Python truthiness tests on numbers (`if booking.total_amount and ...`,
    `if not booker.manager_id`) are modelled explicitly: `0` is falsy.
  * Free-form audit `details` payloads and timestamps are omitted from the
    audit record; no claim depends on them.
-/

namespace Corp

/-- Employee row (`backend/app/models/employee.py`), restricted to the columns
the verified subsystem reads.  `groups` holds the names of the actor's
directory groups (the source stores `DirectoryGroup` rows and reads
`g.name`). -/
structure Employee where
  id : Nat
  managerId : Option Nat
  jobTitle : Option String
  fullName : String
  email : String
  department : Option String
  isActive : Bool
  groups : List String
deriving Repr, DecidableEq

/-- `BookingStatus` enum (`backend/app/models/booking.py`). -/
inductive BookingStatus where
  | draft
  | policyEvaluated
  | pendingApproval
  | approved
  | confirmed
  | cancelled
  | requiresAttention
  | rejected
deriving Repr, DecidableEq

/-- `PolicyStatus` enum (`backend/app/models/booking.py`). -/
inductive PolicyStatus where
  | pass
  | warn
  | block
deriving Repr, DecidableEq

/-- `ApprovalMode` enum (`backend/app/models/organization.py`). -/
inductive ApprovalMode where
  | alwaysAsk
  | onlyWhenNecessary
deriving Repr, DecidableEq

/-- `ApprovalStatus` enum (`backend/app/models/approval.py`). -/
inductive ApprovalStatus where
  | pending
  | approved
  | rejected
deriving Repr, DecidableEq

/-- Booking row (`backend/app/models/booking.py`), restricted to the columns
the policy engine and the state machine read or write. -/
structure Booking where
  id : Nat
  bookerId : Nat
  status : BookingStatus
  policyStatus : Option PolicyStatus
  approvalRequired : Bool
  totalAmount : Option ℚ
  travelClass : Option String
  startDate : Option ℤ
  tripName : Option String
deriving Repr, DecidableEq

/-- `ApprovalRequest` row (`backend/app/models/approval.py`). -/
structure ApprovalRequest where
  bookingId : Nat
  approverId : Nat
  status : ApprovalStatus
  reason : Option String
deriving Repr, DecidableEq

/-- One `AuditLog` row as appended by `AuditService.log`
(`backend/app/services/audit_service.py`); the free-form `details` payload
and the timestamp are omitted. -/
structure AuditEntry where
  entityType : String
  entityId : Nat
  actorId : Nat
  action : String
  fromState : Option String
  toState : Option String
deriving Repr, DecidableEq

/-- The organization `policy_settings` JSONB bag, restricted to the keys
`PolicyEngine.evaluate` reads; `none` models an absent key, so
`settings.get(key, default)` becomes `Option.getD`. -/
structure PolicySettings where
  maxAmount : Option ℚ
  minAdvanceDays : Option ℤ
  businessClassTitles : Option (List String)
deriving Repr, DecidableEq

/-- Organization row (`backend/app/models/organization.py`), restricted to
the policy configuration.  `approvalMode := none` models a NULL column, read
through `org.approval_mode or ApprovalMode.ALWAYS_ASK`. -/
structure Organization where
  policySettings : PolicySettings
  approvalMode : Option ApprovalMode
deriving Repr, DecidableEq

/-- `PolicyViolation` schema (`backend/app/schemas/policy.py`). -/
structure PolicyViolation where
  policy : String
  severity : String
  details : String
deriving Repr, DecidableEq

/-- The dict returned by `PolicyEngine.evaluate`
(`{"result": ..., "approval_required": ..., "violations": [...]}`). -/
structure Verdict where
  result : PolicyStatus
  approvalRequired : Bool
  violations : List PolicyViolation
deriving Repr, DecidableEq

/-- `select(Employee).where(Employee.id == i) ... .first()` over the employee
table. -/
def findEmployee (db : List Employee) (i : Nat) : Option Employee :=
  (db.filter (fun e => e.id == i)).head?

namespace PolicyEngine

/-- Cost-control rule of `PolicyEngine.evaluate` (section 2 of the source).
The guard `if booking.total_amount and booking.total_amount > max_amount`
treats a `None` or zero amount as falsy. -/
def costViolations (settings : PolicySettings) (booking : Booking) :
    List PolicyViolation :=
  let maxAmount := settings.maxAmount.getD 1000
  match booking.totalAmount with
  | none => []
  | some t =>
      if t ≠ 0 ∧ t > maxAmount then
        [{ policy := "Max Cost Exceeded"
           severity := "hard"
           details := "Amount " ++ toString t ++ " > Limit " ++ toString maxAmount }]
      else []

/-- Advance-booking rule of `PolicyEngine.evaluate` (section 3 of the
source); `now` is the evaluation instant in days, so
`delta = (start - now).days` is integer subtraction. -/
def advanceViolations (settings : PolicySettings) (booking : Booking)
    (now : ℤ) : List PolicyViolation :=
  let minDays := settings.minAdvanceDays.getD 7
  match booking.startDate with
  | none => []
  | some start =>
      let delta := start - now
      if delta < minDays then
        [{ policy := "Advance Booking Violation"
           severity := "soft"
           details := "Booked " ++ toString delta ++ " days ahead, required " ++
             toString minDays }]
      else []

/-- Python's `str.lower()` as used on travel-class strings (ASCII
lowercasing, applied character-wise). -/
def pyLower (s : String) : String := ⟨s.data.map Char.toLower⟩

/-- The per-traveler eligibility test of the travel-class rule:
`any(allowed in title for allowed in allowed_business_titles)`, where the
Python `in` is substring containment. -/
def isEligible (allowedTitles : List String) (title : String) : Bool :=
  allowedTitles.any (fun allowed => decide (allowed.data <:+: title.data))

/-- Travel-class eligibility rule of `PolicyEngine.evaluate` (section 4 of
the source): when the requested class lowercases to business/first, every
ineligible traveler contributes one soft violation, in traveler order. -/
def classViolations (settings : PolicySettings) (booking : Booking)
    (travelers : List Employee) : List PolicyViolation :=
  let allowedTitles :=
    settings.businessClassTitles.getD ["CEO", "CTO", "CFO", "Director"]
  let premium :=
    match booking.travelClass with
    | none => false
    | some c => pyLower c == "business" || pyLower c == "first"
  if premium then
    travelers.filterMap (fun t =>
      let title := t.jobTitle.getD ""
      if isEligible allowedTitles title then none
      else some
        { policy := "Travel Class Violation"
          severity := "soft"
          details := "Traveler " ++ t.fullName ++ " (" ++ title ++
            ") not eligible for " ++ (booking.travelClass.getD "") })
  else []

/-- The `violations` list accumulated by `PolicyEngine.evaluate`: the three
rule sections append their violations in order (cost, advance booking,
travel class); all rules run even after one violates. -/
def allViolations (org : Organization) (booking : Booking)
    (travelers : List Employee) (now : ℤ) : List PolicyViolation :=
  costViolations org.policySettings booking ++
    advanceViolations org.policySettings booking now ++
    classViolations org.policySettings booking travelers

/-- `PolicyEngine.evaluate` (`backend/app/services/policy_engine.py`).
`org?` is the result of the organization lookup: `none` takes the fallback
safe-default branch.  `hardBlock` mirrors the source's `hard_block` local,
which is initialised `False` and never assigned afterwards. -/
def evaluate (org? : Option Organization) (booking : Booking)
    (travelers : List Employee) (now : ℤ) : Verdict :=
  match org? with
  | none => { result := .pass, approvalRequired := true, violations := [] }
  | some org =>
      let mode := org.approvalMode.getD .alwaysAsk
      let violations := allViolations org booking travelers now
      let hardBlock := false
      if hardBlock then
        { result := .block, approvalRequired := false, violations := violations }
      else
        let approvalRequired :=
          if mode = .alwaysAsk then true
          else if mode = .onlyWhenNecessary then decide (violations.length > 0)
          else false
        let finalStatus := if violations.isEmpty then PolicyStatus.pass else .warn
        { result := finalStatus
          approvalRequired := approvalRequired
          violations := violations }

end PolicyEngine

namespace BookingStateMachine

/-- Result of one `BookingStateMachine` transition call.  `booking` is the
in-session ORM object when the function returns or raises; `request` is an
`ApprovalRequest` pending insertion; `error := some s` models a raised
`HTTPException(status_code = s)`; `committed` records whether
`db.commit()` was reached.  When the call raises, the request-scoped
session is closed without commit and the pending mutations are rolled
back. -/
structure TransitionOutcome where
  booking : Booking
  request : Option ApprovalRequest
  audits : List AuditEntry
  notified : List String
  error : Option Nat
  committed : Bool
deriving Repr, DecidableEq

/-- The booking state later requests observe: the in-session mutations
persist only if the transition reached `db.commit()`. -/
def persistedBooking (orig : Booking) (o : TransitionOutcome) : Booking :=
  if o.committed then o.booking else orig

/-- `BookingStateMachine.submit_draft`
(`backend/app/services/booking_workflow.py`).  The guard
`if not booker or not booker.manager_id` treats a missing booker row, a NULL
`manager_id` and a zero `manager_id` as failures (Python truthiness). -/
def submit_draft (db : List Employee) (booking : Booking)
    (policyResult : Verdict) : TransitionOutcome :=
  if booking.status ≠ .draft then
    { booking := booking, request := none, audits := [], notified := []
      error := some 400, committed := false }
  else
    let b1 := { booking with
      policyStatus := some policyResult.result
      approvalRequired := policyResult.approvalRequired }
    if policyResult.result = .block then
      { booking := { b1 with status := .rejected }, request := none
        audits := [], notified := [], error := some 400, committed := false }
    else
      let b2 := { b1 with status := .policyEvaluated }
      if policyResult.approvalRequired then
        match findEmployee db booking.bookerId with
        | none =>
            { booking := b2, request := none, audits := [], notified := []
              error := some 400, committed := false }
        | some booker =>
            if booker.managerId.getD 0 = 0 then
              { booking := b2, request := none, audits := [], notified := []
                error := some 400, committed := false }
            else
              let managerId := booker.managerId.getD 0
              let manager := findEmployee db managerId
              let req : ApprovalRequest :=
                { bookingId := booking.id, approverId := managerId
                  status := .pending, reason := none }
              let b3 := { b2 with status := .pendingApproval }
              { booking := b3
                request := some req
                audits := [{ entityType := "booking", entityId := booking.id
                             actorId := booking.bookerId, action := "SUBMIT"
                             fromState := some "draft"
                             toState := some "pending_approval" }]
                notified := match manager with
                  | some m => [m.email]
                  | none => []
                error := none, committed := true }
      else
        let b3 := { b2 with status := .approved }
        let booker := findEmployee db booking.bookerId
        { booking := b3
          request := none
          audits := [{ entityType := "booking", entityId := booking.id
                       actorId := booking.bookerId
                       action := "SUBMIT_AUTO_APPROVE"
                       fromState := some "draft", toState := some "approved" }]
          notified := match booker with
            | some bk => [bk.email]
            | none => []
          error := none, committed := true }

/-- `BookingStateMachine.approve_booking`
(`backend/app/services/booking_workflow.py`). -/
def approve_booking (db : List Employee) (booking : Booking)
    (approver : Employee) : TransitionOutcome :=
  if booking.status ≠ .pendingApproval then
    { booking := booking, request := none, audits := [], notified := []
      error := some 400, committed := false }
  else
    let b' := { booking with status := .approved }
    let booker := findEmployee db booking.bookerId
    { booking := b'
      request := none
      audits := [{ entityType := "booking", entityId := booking.id
                   actorId := approver.id, action := "APPROVE"
                   fromState := some "pending_approval"
                   toState := some "approved" }]
      notified := match booker with
        | some bk => [bk.email]
        | none => []
      error := none, committed := true }

/-- `BookingStateMachine.reject_booking`
(`backend/app/services/booking_workflow.py`). -/
def reject_booking (db : List Employee) (booking : Booking)
    (approver : Employee) : TransitionOutcome :=
  if booking.status ≠ .pendingApproval then
    { booking := booking, request := none, audits := [], notified := []
      error := some 400, committed := false }
  else
    let b' := { booking with status := .rejected }
    let booker := findEmployee db booking.bookerId
    { booking := b'
      request := none
      audits := [{ entityType := "booking", entityId := booking.id
                   actorId := approver.id, action := "REJECT"
                   fromState := some "pending_approval"
                   toState := some "rejected" }]
      notified := match booker with
        | some bk => [bk.email]
        | none => []
      error := none, committed := true }

end BookingStateMachine

/-! ## `backend/app/core/permissions.py` -/

namespace Permissions

def BOOK_SELF : String := "book_self"

def BOOK_FOR_OTHERS : String := "book_for_others"

def BOOK_ANYONE : String := "book_anyone"

def VIEW_SELF_BOOKINGS : String := "view_self_bookings"

def VIEW_TEAM_BOOKINGS : String := "view_team_bookings"

def VIEW_ALL_BOOKINGS : String := "view_all_bookings"

def MANAGE_POLICIES : String := "manage_policies"

def VIEW_ANALYTICS : String := "view_analytics"

def MANAGE_USERS : String := "manage_users"

end Permissions

/-- `GROUP_PERMISSION_MAP` (`backend/app/core/permissions.py`): group name →
set of permission keys (the Python sets are written as lists; only
membership matters). -/
def GROUP_PERMISSION_MAP : List (String × List String) :=
  [("travel_admin",
      [Permissions.BOOK_ANYONE, Permissions.VIEW_ALL_BOOKINGS,
       Permissions.MANAGE_POLICIES, Permissions.VIEW_ANALYTICS,
       Permissions.MANAGE_USERS]),
   ("executive_assistant",
      [Permissions.BOOK_FOR_OTHERS, Permissions.VIEW_TEAM_BOOKINGS,
       Permissions.BOOK_SELF, Permissions.VIEW_SELF_BOOKINGS]),
   ("employee",
      [Permissions.BOOK_SELF, Permissions.VIEW_SELF_BOOKINGS]),
   ("manager",
      [Permissions.BOOK_SELF, Permissions.VIEW_SELF_BOOKINGS,
       Permissions.VIEW_TEAM_BOOKINGS, Permissions.VIEW_ANALYTICS])]

/-- `get_permissions_for_groups` (`backend/app/core/permissions.py`):
union of the mapped permission sets over the lowercased group names,
always merged with the default `"employee"` permissions. -/
def get_permissions_for_groups (groups : List String) : Finset String :=
  let fromGroups := groups.foldl (fun acc g =>
    match GROUP_PERMISSION_MAP.lookup (PolicyEngine.pyLower g) with
    | some perms => acc ∪ perms.toFinset
    | none => acc) ∅
  match GROUP_PERMISSION_MAP.lookup "employee" with
  | some perms => fromGroups ∪ perms.toFinset
  | none => fromGroups

/-! ## `backend/app/core/access_control.py` -/

/-- The `AccessControl` object: an actor together with the permission set
computed in its constructor.  Where the repository calls
`AccessControl(current_user)`, the permission field is
`get_permissions_for_groups` over the actor's group names
(`AccessControl.ofActor`). -/
structure AccessControl where
  actor : Employee
  permissions : Finset String
deriving DecidableEq

/-- The `AccessControl.__init__` permission computation:
`get_permissions_for_groups([g.name for g in actor.groups])`. -/
def AccessControl.ofActor (actor : Employee) : AccessControl :=
  { actor := actor, permissions := get_permissions_for_groups actor.groups }

/-- `AccessControl.can`: membership test in the effective permission set. -/
def AccessControl.can (ac : AccessControl) (permission : String) : Bool :=
  permission ∈ ac.permissions

/-- The `subordinates` ORM relationship: the employees whose `manager_id`
is this employee's id. -/
def directReports (db : List Employee) (managerId : Nat) : List Employee :=
  db.filter (fun e => e.managerId == some managerId)

/-- Ids occurring in a list of employee rows. -/
def idsOf (l : List Employee) : Finset Nat := (l.map (·.id)).toFinset

/-- The BFS loop of `AccessControl._get_all_subordinates`: pop the queue
head, skip it if already visited, otherwise record it and enqueue its
direct reports.  The visited set is the loop's guard against cyclic
manager graphs. -/
def bfsSubordinates (db : List Employee) (visited : Finset Nat)
    (queue : List Employee) : List Employee :=
  match queue with
  | [] => []
  | current :: rest =>
      if current.id ∈ visited then
        bfsSubordinates db visited rest
      else
        current ::
          bfsSubordinates db (insert current.id visited)
            (rest ++ directReports db current.id)
termination_by
  ((idsOf db ∪ idsOf queue) \ visited).card * (db.length + 1) + queue.length
decreasing_by
  · have hsub : (idsOf db ∪ idsOf rest) \ visited ⊆
        (idsOf db ∪ idsOf (current :: rest)) \ visited := by
      apply Finset.sdiff_subset_sdiff _ le_rfl
      apply Finset.union_subset_union le_rfl
      intro x hx
      simp only [idsOf, List.map_cons, List.toFinset_cons, Finset.mem_insert,
        List.mem_toFinset] at hx ⊢
      exact Or.inr hx
    have hcard := Finset.card_le_card hsub
    have hlen : (current :: rest).length = rest.length + 1 := rfl
    have hmul := Nat.mul_le_mul_right (db.length + 1) hcard
    omega
  · rename_i hvis
    have hcurrent : current.id ∈ (idsOf db ∪ idsOf (current :: rest)) \ visited := by
      refine Finset.mem_sdiff.mpr ⟨Finset.mem_union_right _ ?_, hvis⟩
      simp [idsOf]
    have hsub : (idsOf db ∪ idsOf (rest ++ directReports db current.id)) \
        insert current.id visited ⊆
        ((idsOf db ∪ idsOf (current :: rest)) \ visited).erase current.id := by
      intro x hx
      simp only [Finset.mem_sdiff, Finset.mem_union, Finset.mem_insert,
        Finset.mem_erase, idsOf, List.mem_toFinset, List.mem_map,
        List.mem_append, List.mem_cons, not_or] at hx ⊢
      obtain ⟨hmem, hne, hnv⟩ := hx
      refine ⟨hne, ?_, hnv⟩
      rcases hmem with hdb | ⟨e, he, hei⟩
      · exact Or.inl hdb
      · rcases he with he | he
        · exact Or.inr ⟨e, Or.inr he, hei⟩
        · exact Or.inl (by
            simp only [directReports, List.mem_filter] at he
            exact ⟨e, he.1, hei⟩)
    have hcard : ((idsOf db ∪ idsOf (rest ++ directReports db current.id)) \
        insert current.id visited).card <
        ((idsOf db ∪ idsOf (current :: rest)) \ visited).card := by
      calc ((idsOf db ∪ idsOf (rest ++ directReports db current.id)) \
              insert current.id visited).card
          ≤ (((idsOf db ∪ idsOf (current :: rest)) \ visited).erase
              current.id).card := Finset.card_le_card hsub
        _ < ((idsOf db ∪ idsOf (current :: rest)) \ visited).card :=
            Finset.card_erase_lt_of_mem hcurrent
    have hqlen : (rest ++ directReports db current.id).length ≤
        rest.length + db.length := by
      have : (directReports db current.id).length ≤ db.length :=
        List.length_filter_le _ _
      simp only [List.length_append]
      omega
    have hlen : (current :: rest).length = rest.length + 1 := rfl
    have hmul : ((idsOf db ∪ idsOf (rest ++ directReports db current.id)) \
          insert current.id visited).card * (db.length + 1) + (db.length + 1) ≤
        ((idsOf db ∪ idsOf (current :: rest)) \ visited).card * (db.length + 1) := by
      have := Nat.mul_le_mul_right (db.length + 1) (Nat.succ_le_of_lt hcard)
      simpa [Nat.succ_mul] using this
    omega

/-- `AccessControl._get_all_subordinates`: BFS over the manager graph from
the actor's direct reports, with the visited set seeded with the actor's
own id. -/
def getAllSubordinates (db : List Employee) (actor : Employee) :
    List Employee :=
  bfsSubordinates db {actor.id} (directReports db actor.id)

/-! ## `backend/app/api/v1/endpoints/roles.py` (`get_employee_roles`) -/

/-- `AccessScope` enum (`backend/app/models/role_template.py`). -/
inductive AccessScope where
  | self
  | individuals
  | group
  | hierarchy
  | all
deriving Repr, DecidableEq

/-- `RoleTemplate` row, restricted to the fields `get_employee_roles`
reads; `permissions` is the JSONB permission-key → bool map. -/
structure RoleTemplate where
  name : String
  permissions : List (String × Bool)
deriving Repr, DecidableEq

/-- `EmployeeRoleAssignment` row with its eagerly loaded template. -/
structure RoleAssignment where
  roleTemplate : RoleTemplate
  accessScope : AccessScope
  accessibleEmployeeIds : Option (List Nat)
  accessibleGroups : Option (List String)
  isActive : Bool
deriving Repr, DecidableEq

/-- Aggregate computed by `get_employee_roles` before building the
response. -/
structure EmployeeAccess where
  effectivePermissions : Finset String
  allAccessibleIds : Finset Nat
  hasAllAccess : Bool
deriving DecidableEq

/-- The group-scope directory query of `get_employee_roles`:
ids of the organization's employees whose department is one of the
assignment's accessible groups (`Employee.department.in_(groups)`; a NULL
department never matches). -/
def employeesInGroups (orgEmployees : List Employee) (groups : List String) :
    List Nat :=
  (orgEmployees.filter (fun e =>
    match e.department with
    | some d => groups.contains d
    | none => false)).map (·.id)

/-- One iteration of the `for assignment in assignments` loop of
`get_employee_roles`: merge the template's true-valued permissions, then
branch on the assignment's scope.  The guard
`if assignment.accessible_groups` treats `None` and `[]` as falsy. -/
def mergeAssignment (orgEmployees : List Employee) (employeeId : Nat)
    (acc : EmployeeAccess) (assignment : RoleAssignment) : EmployeeAccess :=
  let perms := assignment.roleTemplate.permissions.foldl
    (fun ps pe => if pe.2 then insert pe.1 ps else ps)
    acc.effectivePermissions
  let acc := { acc with effectivePermissions := perms }
  match assignment.accessScope with
  | .all => { acc with hasAllAccess := true }
  | .self => { acc with allAccessibleIds := insert employeeId acc.allAccessibleIds }
  | .individuals =>
      { acc with allAccessibleIds :=
          (insert employeeId acc.allAccessibleIds ∪
            (assignment.accessibleEmployeeIds.getD []).toFinset) }
  | .group =>
      let ids := insert employeeId acc.allAccessibleIds
      let groups := assignment.accessibleGroups.getD []
      { acc with allAccessibleIds :=
          (if groups.isEmpty then ids
           else ids ∪ (employeesInGroups orgEmployees groups).toFinset) }
  | .hierarchy =>
      { acc with allAccessibleIds := insert employeeId acc.allAccessibleIds }

/-- The effective-permission / accessible-id computation of
`get_employee_roles` (`backend/app/api/v1/endpoints/roles.py`): a fold of
`mergeAssignment` over the employee's active assignments, starting from an
empty permission map, an empty accessible-id set and no all-access flag.
The query in the source already filters `is_active`; that filter is kept
here so the function takes all of the employee's assignments. -/
def computeEmployeeAccess (orgEmployees : List Employee) (employeeId : Nat)
    (assignments : List RoleAssignment) : EmployeeAccess :=
  (assignments.filter (·.isActive)).foldl
    (mergeAssignment orgEmployees employeeId)
    { effectivePermissions := ∅, allAccessibleIds := ∅, hasAllAccess := false }

/-- The `accessible_employee_ids` field of the response:
`None if has_all_access else list(all_accessible_ids)`. -/
def responseAccessibleIds (a : EmployeeAccess) : Option (Finset Nat) :=
  if a.hasAllAccess then none else some a.allAccessibleIds

/-! ## `backend/app/api/v1/endpoints/approvals.py` -/

/-- Outcome of an approvals endpoint call.  `requestAfter`/`bookingAfter`
are the in-session row objects at return or raise time, `transitionCalled`
records whether the `BookingStateMachine` transition was invoked, and
`committed` whether the endpoint reached a `db.commit()`. -/
structure EndpointOutcome where
  error : Option Nat
  requestAfter : Option ApprovalRequest
  bookingAfter : Option Booking
  transitionCalled : Bool
  audits : List AuditEntry
  committed : Bool
deriving Repr, DecidableEq

/-- Denial outcome: a raised `HTTPException` before any mutation. -/
def denied (status : Nat) (req? : Option ApprovalRequest)
    (booking? : Option Booking) : EndpointOutcome :=
  { error := some status, requestAfter := req?, bookingAfter := booking?
    transitionCalled := false, audits := [], committed := false }

/-- Body of the `approve_request` endpoint
(`backend/app/api/v1/endpoints/approvals.py`), starting from the
`ac.can("approve_travel")` gate; `perms` is the permission set of the
`AccessControl` object the endpoint builds for the caller, `req?` and
`booking?` the results of the two row lookups, `reason` the
`ApprovalAction.reason` payload. -/
def approve_request (caller : Employee) (perms : Finset String)
    (req? : Option ApprovalRequest) (booking? : Option Booking)
    (db : List Employee) (reason : Option String) : EndpointOutcome :=
  if "approve_travel" ∉ perms then denied 403 req? booking?
  else
    match req? with
    | none => denied 404 none booking?
    | some req =>
        if req.approverId ≠ caller.id then denied 403 (some req) booking?
        else if req.status ≠ .pending then denied 400 (some req) booking?
        else
          match booking? with
          | some booking =>
              if booking.bookerId = caller.id then
                denied 400 (some req) (some booking)
              else
                let t := BookingStateMachine.approve_booking db booking caller
                match t.error with
                | some s =>
                    { error := some s, requestAfter := some req
                      bookingAfter := some t.booking, transitionCalled := true
                      audits := t.audits, committed := false }
                | none =>
                    let req' := { req with status := .approved, reason := reason }
                    { error := none, requestAfter := some req'
                      bookingAfter := some t.booking, transitionCalled := true
                      audits := t.audits, committed := true }
          | none =>
              let req' := { req with status := .approved, reason := reason }
              { error := none, requestAfter := some req', bookingAfter := none
                transitionCalled := false, audits := [], committed := true }

/-- The `approve_request` endpoint as deployed: the permission set comes
from `AccessControl(current_user)` over the caller's groups. -/
def approve_request_endpoint (caller : Employee)
    (req? : Option ApprovalRequest) (booking? : Option Booking)
    (db : List Employee) (reason : Option String) : EndpointOutcome :=
  approve_request caller (AccessControl.ofActor caller).permissions
    req? booking? db reason

/-- Body of the `reject_request` endpoint
(`backend/app/api/v1/endpoints/approvals.py`); the request row is mutated
before the lifecycle transition runs. -/
def reject_request (caller : Employee) (perms : Finset String)
    (req? : Option ApprovalRequest) (booking? : Option Booking)
    (db : List Employee) (reason : Option String) : EndpointOutcome :=
  if "approve_travel" ∉ perms then denied 403 req? booking?
  else
    match req? with
    | none => denied 404 none booking?
    | some req =>
        if req.approverId ≠ caller.id then denied 403 (some req) booking?
        else if req.status ≠ .pending then denied 400 (some req) booking?
        else
          let req' := { req with status := .rejected, reason := reason }
          match booking? with
          | some booking =>
              let t := BookingStateMachine.reject_booking db booking caller
              match t.error with
              | some s =>
                  { error := some s, requestAfter := some req'
                    bookingAfter := some t.booking, transitionCalled := true
                    audits := t.audits, committed := false }
              | none =>
                  { error := none, requestAfter := some req'
                    bookingAfter := some t.booking, transitionCalled := true
                    audits := t.audits, committed := true }
          | none =>
              { error := none, requestAfter := some req', bookingAfter := none
                transitionCalled := false, audits := [], committed := true }

/-- The `reject_request` endpoint as deployed. -/
def reject_request_endpoint (caller : Employee)
    (req? : Option ApprovalRequest) (booking? : Option Booking)
    (db : List Employee) (reason : Option String) : EndpointOutcome :=
  reject_request caller (AccessControl.ofActor caller).permissions
    req? booking? db reason

/-! ## Theorems -/

/-- Invariant of the subordinate BFS: the emitted employees have pairwise
distinct ids and none of them is in the visited set the loop started
with. -/
theorem bfsSubordinates_nodup_notVisited (db : List Employee)
    (visited : Finset Nat) (queue : List Employee) :
    ((bfsSubordinates db visited queue).map (·.id)).Nodup ∧
      ∀ e ∈ bfsSubordinates db visited queue, e.id ∉ visited := by
  induction visited, queue using bfsSubordinates.induct db with
  | case1 visited => simp [bfsSubordinates]
  | case2 visited current rest hvis ih =>
      rw [bfsSubordinates, if_pos hvis]
      exact ih
  | case3 visited current rest hvis ih =>
      rw [bfsSubordinates, if_neg hvis]
      obtain ⟨ihN, ihV⟩ := ih
      constructor
      · simp only [List.map_cons, List.nodup_cons, List.mem_map]
        refine ⟨?_, ihN⟩
        rintro ⟨e, he, hei⟩
        exact ihV e he (hei ▸ Finset.mem_insert_self _ _)
      · intro e he
        rcases List.mem_cons.mp he with rfl | he'
        · exact hvis
        · intro hv
          exact ihV e he' (Finset.mem_insert_of_mem hv)

/-- C9.  For every manager graph, including graphs with cycles or a
self-loop, the subordinate walk `_get_all_subordinates` terminates (the
function below is total by the well-founded recursion of
`bfsSubordinates`), lists each reachable employee at most once, and never
includes the root actor itself. -/
theorem C9_subordinate_walk_nodup_no_root (db : List Employee)
    (actor : Employee) :
    ((getAllSubordinates db actor).map (·.id)).Nodup ∧
      actor.id ∉ (getAllSubordinates db actor).map (·.id) := by
  obtain ⟨hN, hV⟩ :=
    bfsSubordinates_nodup_notVisited db {actor.id} (directReports db actor.id)
  refine ⟨hN, ?_⟩
  simp only [List.mem_map]
  rintro ⟨e, he, hei⟩
  exact hV e he (by simp [hei])

/-- No entry of `GROUP_PERMISSION_MAP` carries `"approve_travel"`. -/
theorem approve_travel_not_in_lookup (g : String) (ps : List String)
    (h : GROUP_PERMISSION_MAP.lookup g = some ps) :
    "approve_travel" ∉ ps := by
  simp only [GROUP_PERMISSION_MAP, List.lookup] at h
  repeat' split at h
  all_goals first
    | (injection h with h; subst h; decide)
    | (injection h)

/-- `get_permissions_for_groups` never yields `"approve_travel"`. -/
theorem approve_travel_not_granted (groups : List String) :
    "approve_travel" ∉ get_permissions_for_groups groups := by
  unfold get_permissions_for_groups
  have hfold : ∀ (gs : List String) (acc : Finset String),
      "approve_travel" ∉ acc →
      "approve_travel" ∉ gs.foldl (fun acc g =>
        match GROUP_PERMISSION_MAP.lookup (PolicyEngine.pyLower g) with
        | some perms => acc ∪ perms.toFinset
        | none => acc) acc := by
    intro gs
    induction gs with
    | nil => intro acc hacc; exact hacc
    | cons g gs ih =>
        intro acc hacc
        simp only [List.foldl_cons]
        apply ih
        cases hl : GROUP_PERMISSION_MAP.lookup (PolicyEngine.pyLower g) with
        | none => simpa [hl] using hacc
        | some perms =>
            simp only [hl, Finset.mem_union, List.mem_toFinset]
            rintro (hv | hv)
            · exact hacc hv
            · exact approve_travel_not_in_lookup _ _ hl hv
  cases he : GROUP_PERMISSION_MAP.lookup "employee" with
  | none => simpa [he] using hfold groups ∅ (by simp)
  | some perms =>
      simp only [he, Finset.mem_union, List.mem_toFinset]
      rintro (hv | hv)
      · exact hfold groups ∅ (by simp) hv
      · exact approve_travel_not_in_lookup _ _ he hv

/-- C10.  No entry of `GROUP_PERMISSION_MAP` grants `approve_travel`, so
the permission set computed by `get_permissions_for_groups` never contains
it, `AccessControl.can("approve_travel")` is false for every actor, and the
permission gate of the approve/reject endpoints denies every caller with a
403 before any lifecycle transition. -/
theorem C10_approve_travel_never_granted :
    (∀ groups : List String,
        "approve_travel" ∉ get_permissions_for_groups groups) ∧
    (∀ actor : Employee,
        (AccessControl.ofActor actor).can "approve_travel" = false) ∧
    (∀ (caller : Employee) (req? : Option ApprovalRequest)
        (booking? : Option Booking) (db : List Employee)
        (reason : Option String),
        (approve_request_endpoint caller req? booking? db reason).error =
            some 403 ∧
        (approve_request_endpoint caller req? booking? db
            reason).transitionCalled = false) ∧
    (∀ (caller : Employee) (req? : Option ApprovalRequest)
        (booking? : Option Booking) (db : List Employee)
        (reason : Option String),
        (reject_request_endpoint caller req? booking? db reason).error =
            some 403 ∧
        (reject_request_endpoint caller req? booking? db
            reason).transitionCalled = false) := by
  have hgate : ∀ caller : Employee,
      "approve_travel" ∉ (AccessControl.ofActor caller).permissions :=
    fun caller => approve_travel_not_granted caller.groups
  refine ⟨approve_travel_not_granted, ?_, ?_, ?_⟩
  · intro actor
    simp [AccessControl.can, hgate actor]
  · intro caller req? booking? db reason
    unfold approve_request_endpoint approve_request
    rw [if_pos (hgate caller)]
    exact ⟨rfl, rfl⟩
  · intro caller req? booking? db reason
    unfold reject_request_endpoint reject_request
    rw [if_pos (hgate caller)]
    exact ⟨rfl, rfl⟩

/-- `PolicyEngine.evaluate` on a found organization, written out. -/
theorem evaluate_some_eq (org : Organization) (b : Booking)
    (tv : List Employee) (now : ℤ) :
    PolicyEngine.evaluate (some org) b tv now =
      { result :=
          if (PolicyEngine.allViolations org b tv now).isEmpty then .pass
          else .warn
        approvalRequired :=
          if org.approvalMode.getD .alwaysAsk = .alwaysAsk then true
          else if org.approvalMode.getD .alwaysAsk = .onlyWhenNecessary then
            decide ((PolicyEngine.allViolations org b tv now).length > 0)
          else false
        violations := PolicyEngine.allViolations org b tv now } := rfl

/-- C3.  With no hard block (none ever fires), the verdict result is `warn`
exactly when the violations list is non-empty and `pass` exactly when it is
empty; `approval_required` is unconditionally true under `always_ask` and
otherwise true exactly when the violation count is positive. -/
theorem C3_verdict_derivation (org : Organization) (b : Booking)
    (tv : List Employee) (now : ℤ) :
    ((PolicyEngine.evaluate (some org) b tv now).result = .warn ↔
      (PolicyEngine.evaluate (some org) b tv now).violations ≠ []) ∧
    ((PolicyEngine.evaluate (some org) b tv now).result = .pass ↔
      (PolicyEngine.evaluate (some org) b tv now).violations = []) ∧
    (org.approvalMode.getD .alwaysAsk = .alwaysAsk →
      (PolicyEngine.evaluate (some org) b tv now).approvalRequired = true) ∧
    (org.approvalMode.getD .alwaysAsk = .onlyWhenNecessary →
      (PolicyEngine.evaluate (some org) b tv now).approvalRequired =
        decide
          (0 < (PolicyEngine.evaluate (some org) b tv now).violations.length)) := by
  rw [evaluate_some_eq]
  refine ⟨?_, ?_, ?_, ?_⟩
  · cases hV : PolicyEngine.allViolations org b tv now <;> simp
  · cases hV : PolicyEngine.allViolations org b tv now <;> simp
  · intro h
    simp [h]
  · intro h
    simp [h, gt_iff_lt]

/-- C1 (counterexample).  On a booking of 1500 against the default ceiling
of 1000, `evaluate` records the cost-ceiling violation with severity
`"hard"`, not `"soft"` as claimed. -/
theorem C1_counterexample :
    (PolicyEngine.evaluate
        (some { policySettings := ⟨none, none, none⟩
                approvalMode := some .alwaysAsk })
        { id := 1, bookerId := 1, status := .draft, policyStatus := none
          approvalRequired := false, totalAmount := some 1500
          travelClass := some "economy", startDate := none, tripName := none }
        [] 0).violations.map (fun v => (v.policy, v.severity)) =
      [("Max Cost Exceeded", "hard")] ∧ ("hard" : String) ≠ "soft" := by
  constructor
  · rfl
  · decide

/-- C1 (amended).  When the total amount is non-zero and exceeds the
configured ceiling (default 1000), the recorded cost-ceiling violation has
severity `"hard"`; this never triggers the hard-block path — the verdict
stays warn-class (`warn`, never `block`). -/
theorem C1_cost_ceiling_severity (org : Organization) (b : Booking)
    (tv : List Employee) (now : ℤ) (t : ℚ)
    (h1 : b.totalAmount = some t) (h2 : t ≠ 0)
    (h3 : t > org.policySettings.maxAmount.getD 1000) :
    (PolicyEngine.evaluate (some org) b tv now).violations.head? =
      some { policy := "Max Cost Exceeded", severity := "hard"
             details := "Amount " ++ toString t ++ " > Limit " ++
               toString (org.policySettings.maxAmount.getD 1000) } ∧
    (PolicyEngine.evaluate (some org) b tv now).result = .warn ∧
    (PolicyEngine.evaluate (some org) b tv now).result ≠ .block := by
  have hc : PolicyEngine.costViolations org.policySettings b =
      [{ policy := "Max Cost Exceeded", severity := "hard"
         details := "Amount " ++ toString t ++ " > Limit " ++
           toString (org.policySettings.maxAmount.getD 1000) }] := by
    simp only [PolicyEngine.costViolations, h1]
    rw [if_pos ⟨h2, h3⟩]
  have hv : PolicyEngine.allViolations org b tv now =
      { policy := "Max Cost Exceeded", severity := "hard"
        details := "Amount " ++ toString t ++ " > Limit " ++
          toString (org.policySettings.maxAmount.getD 1000) } ::
        (PolicyEngine.advanceViolations org.policySettings b now ++
          PolicyEngine.classViolations org.policySettings b tv) := by
    simp [PolicyEngine.allViolations, hc]
  rw [evaluate_some_eq]
  refine ⟨?_, ?_, ?_⟩
  · simp [hv]
  · simp [hv]
  · simp [hv]

/-- Witness for C1's amended theorem at the concrete counterexample
booking. -/
theorem C1_cost_ceiling_severity_witness :
    (PolicyEngine.evaluate
        (some { policySettings := ⟨none, none, none⟩
                approvalMode := some .alwaysAsk })
        { id := 1, bookerId := 1, status := .draft, policyStatus := none
          approvalRequired := false, totalAmount := some 1500
          travelClass := some "economy", startDate := none, tripName := none }
        [] 0).violations.head? =
      some { policy := "Max Cost Exceeded", severity := "hard"
             details := "Amount " ++ toString (1500 : ℚ) ++ " > Limit " ++
               toString ((1000 : ℚ)) } ∧
    (PolicyEngine.evaluate
        (some { policySettings := ⟨none, none, none⟩
                approvalMode := some .alwaysAsk })
        { id := 1, bookerId := 1, status := .draft, policyStatus := none
          approvalRequired := false, totalAmount := some 1500
          travelClass := some "economy", startDate := none, tripName := none }
        [] 0).result = .warn ∧
    (PolicyEngine.evaluate
        (some { policySettings := ⟨none, none, none⟩
                approvalMode := some .alwaysAsk })
        { id := 1, bookerId := 1, status := .draft, policyStatus := none
          approvalRequired := false, totalAmount := some 1500
          travelClass := some "economy", startDate := none, tripName := none }
        [] 0).result ≠ .block :=
  C1_cost_ceiling_severity _ _ [] 0 1500 rfl (by decide) (by decide)

/-- C2 (counterexample).  An evaluation whose violations list contains a
hard-severity violation (booking of 2500, default ceiling) returns result
`warn` with `approval_required = true`, not `block` with
`approval_required = false` as claimed. -/
theorem C2_counterexample :
    (PolicyEngine.evaluate
        (some { policySettings := ⟨none, none, none⟩
                approvalMode := some .alwaysAsk })
        { id := 2, bookerId := 1, status := .draft, policyStatus := none
          approvalRequired := false, totalAmount := some 2500
          travelClass := some "economy", startDate := none, tripName := none }
        [] 0).violations.map (·.severity) = ["hard"] ∧
    (PolicyEngine.evaluate
        (some { policySettings := ⟨none, none, none⟩
                approvalMode := some .alwaysAsk })
        { id := 2, bookerId := 1, status := .draft, policyStatus := none
          approvalRequired := false, totalAmount := some 2500
          travelClass := some "economy", startDate := none, tripName := none }
        [] 0).result = .warn ∧
    (PolicyEngine.evaluate
        (some { policySettings := ⟨none, none, none⟩
                approvalMode := some .alwaysAsk })
        { id := 2, bookerId := 1, status := .draft, policyStatus := none
          approvalRequired := false, totalAmount := some 2500
          travelClass := some "economy", startDate := none, tripName := none }
        [] 0).approvalRequired = true := by
  refine ⟨?_, ?_, ?_⟩ <;> rfl

/-- C2 (amended).  `evaluate` never returns result `block` — the
`hard_block` flag is never populated, so hard-severity violations still
yield a warn-class verdict; and when a verdict with result `block` is
nevertheless passed to `submit_draft`, the call raises a policy-block error
(400), sets only the in-session booking object to `rejected`, creates no
approval request and commits nothing, leaving the stored booking
unchanged. -/
theorem C2_hard_violation_block_path :
    (∀ (org? : Option Organization) (b : Booking) (tv : List Employee)
        (now : ℤ),
        (PolicyEngine.evaluate org? b tv now).result ≠ .block) ∧
    (∀ (db : List Employee) (b : Booking) (pr : Verdict),
        b.status = .draft → pr.result = .block →
        (BookingStateMachine.submit_draft db b pr).error = some 400 ∧
        (BookingStateMachine.submit_draft db b pr).booking.status =
          .rejected ∧
        (BookingStateMachine.submit_draft db b pr).request = none ∧
        (BookingStateMachine.submit_draft db b pr).committed = false ∧
        BookingStateMachine.persistedBooking b
          (BookingStateMachine.submit_draft db b pr) = b) := by
  constructor
  · intro org? b tv now
    cases org? with
    | none => simp [PolicyEngine.evaluate]
    | some org =>
        rw [evaluate_some_eq]
        by_cases hV : (PolicyEngine.allViolations org b tv now).isEmpty <;>
          simp [hV]
  · intro db b pr h1 h2
    unfold BookingStateMachine.submit_draft
    rw [if_neg (by simp [h1]), if_pos h2]
    exact ⟨rfl, rfl, rfl, rfl, rfl⟩

/-- Witness for C2's amended theorem: the block branch of `submit_draft` on
a concrete draft booking, and `evaluate` on the fallback branch. -/
theorem C2_hard_violation_block_path_witness :
    (PolicyEngine.evaluate none
        { id := 3, bookerId := 1, status := .draft, policyStatus := none
          approvalRequired := false, totalAmount := none
          travelClass := none, startDate := none, tripName := none }
        [] 0).result ≠ .block ∧
    (BookingStateMachine.submit_draft []
        { id := 3, bookerId := 1, status := .draft, policyStatus := none
          approvalRequired := false, totalAmount := none
          travelClass := none, startDate := none, tripName := none }
        { result := .block, approvalRequired := false, violations := [] }).error =
      some 400 ∧
    (BookingStateMachine.submit_draft []
        { id := 3, bookerId := 1, status := .draft, policyStatus := none
          approvalRequired := false, totalAmount := none
          travelClass := none, startDate := none, tripName := none }
        { result := .block, approvalRequired := false, violations := [] }).booking.status =
      .rejected :=
  ⟨C2_hard_violation_block_path.1 none _ [] 0,
   (C2_hard_violation_block_path.2 [] _ _ rfl rfl).1,
   (C2_hard_violation_block_path.2 [] _ _ rfl rfl).2.1⟩

/-- C4.  When the verdict requires approval and the booker row has no
manager, `submit_draft` raises an error, creates no approval request and
reaches no commit, so the stored booking — its `status`, `policy_status`
and `approval_required` fields included — is unchanged. -/
theorem C4_missing_manager_fails_atomically (db : List Employee)
    (b : Booking) (pr : Verdict) (booker : Employee)
    (hreq : pr.approvalRequired = true)
    (hfind : findEmployee db b.bookerId = some booker)
    (hmgr : booker.managerId = none) :
    (BookingStateMachine.submit_draft db b pr).error.isSome = true ∧
    (BookingStateMachine.submit_draft db b pr).request = none ∧
    (BookingStateMachine.submit_draft db b pr).committed = false ∧
    BookingStateMachine.persistedBooking b
      (BookingStateMachine.submit_draft db b pr) = b ∧
    (BookingStateMachine.persistedBooking b
      (BookingStateMachine.submit_draft db b pr)).status = b.status ∧
    (BookingStateMachine.persistedBooking b
      (BookingStateMachine.submit_draft db b pr)).policyStatus =
        b.policyStatus ∧
    (BookingStateMachine.persistedBooking b
      (BookingStateMachine.submit_draft db b pr)).approvalRequired =
        b.approvalRequired := by
  unfold BookingStateMachine.submit_draft
  by_cases hs : b.status = BookingStatus.draft
  · rw [if_neg (by simp [hs])]
    by_cases hb : pr.result = PolicyStatus.block
    · rw [if_pos hb]
      exact ⟨rfl, rfl, rfl, rfl, rfl, rfl, rfl⟩
    · rw [if_neg hb, hreq, if_pos rfl, hfind]
      simp only [hmgr, Option.getD_none, if_pos rfl]
      exact ⟨rfl, rfl, rfl, rfl, rfl, rfl, rfl⟩
  · rw [if_pos (by simp [hs])]
    exact ⟨rfl, rfl, rfl, rfl, rfl, rfl, rfl⟩

/-- Witness for C4: a booker with no manager and a verdict requiring
approval. -/
theorem C4_missing_manager_fails_atomically_witness :
    (BookingStateMachine.submit_draft
        [{ id := 1, managerId := none, jobTitle := none, fullName := "A"
           email := "a@x", department := none, isActive := true, groups := [] }]
        { id := 4, bookerId := 1, status := .draft, policyStatus := none
          approvalRequired := false, totalAmount := some 1500
          travelClass := none, startDate := none, tripName := none }
        { result := .warn, approvalRequired := true, violations := [] }).error.isSome =
      true ∧
    BookingStateMachine.persistedBooking
      { id := 4, bookerId := 1, status := .draft, policyStatus := none
        approvalRequired := false, totalAmount := some 1500
        travelClass := none, startDate := none, tripName := none }
      (BookingStateMachine.submit_draft
        [{ id := 1, managerId := none, jobTitle := none, fullName := "A"
           email := "a@x", department := none, isActive := true, groups := [] }]
        { id := 4, bookerId := 1, status := .draft, policyStatus := none
          approvalRequired := false, totalAmount := some 1500
          travelClass := none, startDate := none, tripName := none }
        { result := .warn, approvalRequired := true, violations := [] }) =
      { id := 4, bookerId := 1, status := .draft, policyStatus := none
        approvalRequired := false, totalAmount := some 1500
        travelClass := none, startDate := none, tripName := none } :=
  ⟨(C4_missing_manager_fails_atomically
      [{ id := 1, managerId := none, jobTitle := none, fullName := "A"
         email := "a@x", department := none, isActive := true, groups := [] }]
      { id := 4, bookerId := 1, status := .draft, policyStatus := none
        approvalRequired := false, totalAmount := some 1500
        travelClass := none, startDate := none, tripName := none }
      { result := .warn, approvalRequired := true, violations := [] }
      { id := 1, managerId := none, jobTitle := none, fullName := "A"
        email := "a@x", department := none, isActive := true, groups := [] }
      rfl rfl rfl).1,
   (C4_missing_manager_fails_atomically
      [{ id := 1, managerId := none, jobTitle := none, fullName := "A"
         email := "a@x", department := none, isActive := true, groups := [] }]
      { id := 4, bookerId := 1, status := .draft, policyStatus := none
        approvalRequired := false, totalAmount := some 1500
        travelClass := none, startDate := none, tripName := none }
      { result := .warn, approvalRequired := true, violations := [] }
      { id := 1, managerId := none, jobTitle := none, fullName := "A"
        email := "a@x", department := none, isActive := true, groups := [] }
      rfl rfl rfl).2.2.2.1⟩

/-- C5 (counterexample).  With zero role assignments (empty org directory,
employee id 1), `get_employee_roles` computes an empty permission map but
an empty accessible-id set — not `{1}` as claimed. -/
theorem C5_counterexample :
    (computeEmployeeAccess [] 1 []).effectivePermissions = ∅ ∧
    (computeEmployeeAccess [] 1 []).allAccessibleIds = ∅ ∧
    responseAccessibleIds (computeEmployeeAccess [] 1 []) = some ∅ ∧
    ¬ (computeEmployeeAccess [] 1 []).allAccessibleIds = {1} := by
  refine ⟨rfl, rfl, rfl, ?_⟩
  decide

/-- C5 (amended).  For every actor with zero role assignments,
`get_employee_roles` yields an empty effective permission set and an empty
accessible-id set (the actor's own id is seeded only inside per-assignment
scope branches), with no all-access flag. -/
theorem C5_zero_assignments_empty (orgEmployees : List Employee)
    (employeeId : Nat) :
    (computeEmployeeAccess orgEmployees employeeId []).effectivePermissions =
      ∅ ∧
    (computeEmployeeAccess orgEmployees employeeId []).allAccessibleIds = ∅ ∧
    (computeEmployeeAccess orgEmployees employeeId []).hasAllAccess = false ∧
    responseAccessibleIds (computeEmployeeAccess orgEmployees employeeId []) =
      some ∅ :=
  ⟨rfl, rfl, rfl, rfl⟩

/-- C8.  `submit_draft` on a non-draft booking raises a 400 error
immediately: the in-session booking object is untouched, no approval
request is created, nothing is committed, and the stored booking is
unchanged. -/
theorem C8_submit_non_draft_fails (db : List Employee) (b : Booking)
    (pr : Verdict) (h : b.status ≠ .draft) :
    (BookingStateMachine.submit_draft db b pr).error = some 400 ∧
    (BookingStateMachine.submit_draft db b pr).booking = b ∧
    (BookingStateMachine.submit_draft db b pr).request = none ∧
    (BookingStateMachine.submit_draft db b pr).committed = false ∧
    BookingStateMachine.persistedBooking b
      (BookingStateMachine.submit_draft db b pr) = b := by
  unfold BookingStateMachine.submit_draft
  rw [if_pos h]
  exact ⟨rfl, rfl, rfl, rfl, rfl⟩

/-- Witness for C8: submitting an already-approved booking. -/
theorem C8_submit_non_draft_fails_witness :
    (BookingStateMachine.submit_draft []
        { id := 5, bookerId := 1, status := .approved, policyStatus := none
          approvalRequired := false, totalAmount := none
          travelClass := none, startDate := none, tripName := none }
        { result := .pass, approvalRequired := false, violations := [] }).error =
      some 400 ∧
    (BookingStateMachine.submit_draft []
        { id := 5, bookerId := 1, status := .approved, policyStatus := none
          approvalRequired := false, totalAmount := none
          travelClass := none, startDate := none, tripName := none }
        { result := .pass, approvalRequired := false, violations := [] }).booking =
      { id := 5, bookerId := 1, status := .approved, policyStatus := none
        approvalRequired := false, totalAmount := none
        travelClass := none, startDate := none, tripName := none } :=
  ⟨(C8_submit_non_draft_fails [] _ _ (by decide)).1,
   (C8_submit_non_draft_fails [] _ _ (by decide)).2.1⟩

/-- C6.  Whenever the underlying booking's booker is the caller, the
approve endpoint denies the call (every path raises) before
`approve_booking` is ever invoked, and the booking object — still in
status `pending_approval` — is untouched. -/
theorem C6_self_approval_denied (caller : Employee) (perms : Finset String)
    (req? : Option ApprovalRequest) (b : Booking) (db : List Employee)
    (reason : Option String)
    (hself : b.bookerId = caller.id)
    (hpend : b.status = .pendingApproval) :
    (approve_request caller perms req? (some b) db reason).error.isSome =
      true ∧
    (approve_request caller perms req? (some b) db
      reason).transitionCalled = false ∧
    (approve_request caller perms req? (some b) db reason).bookingAfter =
      some b ∧
    ((approve_request caller perms req? (some b) db
      reason).bookingAfter.map Booking.status) = some .pendingApproval := by
  unfold approve_request
  by_cases hg : "approve_travel" ∉ perms
  · rw [if_pos hg]
    exact ⟨rfl, rfl, rfl, by simp [denied, hpend]⟩
  · rw [if_neg hg]
    cases req? with
    | none => exact ⟨rfl, rfl, rfl, by simp [denied, hpend]⟩
    | some req =>
        by_cases ha : req.approverId ≠ caller.id
        · simp only [if_pos ha]
          exact ⟨rfl, rfl, rfl, by simp [denied, hpend]⟩
        · simp only [if_neg ha]
          by_cases hst : req.status ≠ ApprovalStatus.pending
          · simp only [if_pos hst]
            exact ⟨rfl, rfl, rfl, by simp [denied, hpend]⟩
          · simp only [if_neg hst, if_pos hself]
            exact ⟨rfl, rfl, rfl, by simp [denied, hpend]⟩

/-- Witness for C6: the designated approver is also the booker; the call is
denied and the booking stays pending. -/
theorem C6_self_approval_denied_witness :
    (approve_request
        { id := 2, managerId := none, jobTitle := none, fullName := "M"
          email := "m@x", department := none, isActive := true, groups := [] }
        {"approve_travel"}
        (some { bookingId := 6, approverId := 2, status := .pending
                reason := none })
        (some { id := 6, bookerId := 2, status := .pendingApproval
                policyStatus := some .warn, approvalRequired := true
                totalAmount := none, travelClass := none, startDate := none
                tripName := none })
        [] none).error.isSome = true ∧
    (approve_request
        { id := 2, managerId := none, jobTitle := none, fullName := "M"
          email := "m@x", department := none, isActive := true, groups := [] }
        {"approve_travel"}
        (some { bookingId := 6, approverId := 2, status := .pending
                reason := none })
        (some { id := 6, bookerId := 2, status := .pendingApproval
                policyStatus := some .warn, approvalRequired := true
                totalAmount := none, travelClass := none, startDate := none
                tripName := none })
        [] none).transitionCalled = false ∧
    ((approve_request
        { id := 2, managerId := none, jobTitle := none, fullName := "M"
          email := "m@x", department := none, isActive := true, groups := [] }
        {"approve_travel"}
        (some { bookingId := 6, approverId := 2, status := .pending
                reason := none })
        (some { id := 6, bookerId := 2, status := .pendingApproval
                policyStatus := some .warn, approvalRequired := true
                totalAmount := none, travelClass := none, startDate := none
                tripName := none })
        [] none).bookingAfter.map Booking.status) = some .pendingApproval := by
  refine ⟨?_, ?_, ?_⟩
  · exact (C6_self_approval_denied _ _ _ _ [] none rfl rfl).1
  · exact (C6_self_approval_denied _ _ _ _ [] none rfl rfl).2.1
  · exact (C6_self_approval_denied _ _ _ _ [] none rfl rfl).2.2.2

/-- C7.  A pending approval request resolved by its designated approver
(holding `approve_travel`, distinct from the booker, with the booking still
pending) succeeds: the booking ends approved and the companion request ends
approved carrying the supplied reason text. -/
theorem C7_designated_approver_success (caller : Employee)
    (perms : Finset String) (req : ApprovalRequest) (b : Booking)
    (db : List Employee) (r : String)
    (hperm : "approve_travel" ∈ perms)
    (happr : req.approverId = caller.id)
    (hpend : req.status = .pending)
    (hnotself : b.bookerId ≠ caller.id)
    (hbpend : b.status = .pendingApproval) :
    (approve_request caller perms (some req) (some b) db (some r)).error =
      none ∧
    (approve_request caller perms (some req) (some b) db
      (some r)).bookingAfter = some { b with status := .approved } ∧
    (approve_request caller perms (some req) (some b) db
      (some r)).requestAfter =
        some { req with status := .approved, reason := some r } ∧
    (approve_request caller perms (some req) (some b) db
      (some r)).committed = true := by
  unfold approve_request
  rw [if_neg (not_not_intro hperm)]
  simp only [if_neg (not_not_intro happr), if_neg (not_not_intro hpend),
    if_neg hnotself]
  unfold BookingStateMachine.approve_booking
  simp only [if_neg (not_not_intro hbpend)]
  simp

/-- Witness for C7: a concrete pending request approved by its designated
approver with reason "ok". -/
theorem C7_designated_approver_success_witness :
    (approve_request
        { id := 2, managerId := none, jobTitle := none, fullName := "M"
          email := "m@x", department := none, isActive := true, groups := [] }
        {"approve_travel"}
        (some { bookingId := 7, approverId := 2, status := .pending
                reason := none })
        (some { id := 7, bookerId := 1, status := .pendingApproval
                policyStatus := some .warn, approvalRequired := true
                totalAmount := none, travelClass := none, startDate := none
                tripName := none })
        [] (some "ok")).error = none ∧
    (approve_request
        { id := 2, managerId := none, jobTitle := none, fullName := "M"
          email := "m@x", department := none, isActive := true, groups := [] }
        {"approve_travel"}
        (some { bookingId := 7, approverId := 2, status := .pending
                reason := none })
        (some { id := 7, bookerId := 1, status := .pendingApproval
                policyStatus := some .warn, approvalRequired := true
                totalAmount := none, travelClass := none, startDate := none
                tripName := none })
        [] (some "ok")).bookingAfter =
      some { id := 7, bookerId := 1, status := .approved
             policyStatus := some .warn, approvalRequired := true
             totalAmount := none, travelClass := none, startDate := none
             tripName := none } ∧
    (approve_request
        { id := 2, managerId := none, jobTitle := none, fullName := "M"
          email := "m@x", department := none, isActive := true, groups := [] }
        {"approve_travel"}
        (some { bookingId := 7, approverId := 2, status := .pending
                reason := none })
        (some { id := 7, bookerId := 1, status := .pendingApproval
                policyStatus := some .warn, approvalRequired := true
                totalAmount := none, travelClass := none, startDate := none
                tripName := none })
        [] (some "ok")).requestAfter =
      some { bookingId := 7, approverId := 2, status := .approved
             reason := some "ok" } := by
  refine ⟨?_, ?_, ?_⟩
  · exact (C7_designated_approver_success _ _ _ _ [] "ok" (by decide) rfl rfl
      (by decide) rfl).1
  · exact (C7_designated_approver_success _ _ _ _ [] "ok" (by decide) rfl rfl
      (by decide) rfl).2.1
  · exact (C7_designated_approver_success _ _ _ _ [] "ok" (by decide) rfl rfl
      (by decide) rfl).2.2.1

end Corp
